import Mathlib

/-!
Verification of the `boost::stacktrace::frame` value type and the
`boost::stacktrace::detail::backend` contract, shallowly embedded from
`src/include/boost/stacktrace/frame.hpp`.

Raw addresses (`const void*`) are modelled as `Nat`, with `0` the null
sentinel.  The `frame` class holds a single address `addr_`; every member
function is `const` and therefore embedded as a pure function of the frame.
The backend's implementation file (`backend.ipp`) is not part of the given
sources — only its declaration and documented contract are — so the backend
is modelled from the spec where a claim needs its behaviour.
-/

/-- `class frame { const void* addr_; ... }` — the single data member. -/
structure frame where
  addr_ : Nat
deriving DecidableEq

/-- `frame() BOOST_NOEXCEPT : addr_(0) {}` — the default constructor,
producing the empty frame that references the NULL address. -/
def frame.default : frame := ⟨0⟩

/-- `explicit frame(const void* addr) BOOST_NOEXCEPT : addr_(addr) {}` —
the binding constructor, storing the caller-supplied address as-is. -/
def frame.ofAddr (addr : Nat) : frame := ⟨addr⟩

/-- `const void* address() const BOOST_NOEXCEPT { return addr_; }` -/
def frame.address (f : frame) : Nat := f.addr_

/-- Truthiness of a C pointer value: non-null is `true`. -/
def ptrToBool (p : Nat) : Bool := p != 0

/-- `bool operator!() const BOOST_NOEXCEPT { return !address(); }` -/
def frame.operatorNot (f : frame) : Bool := !(ptrToBool f.address)

/-- `bool empty() const BOOST_NOEXCEPT { return !address(); }` -/
def frame.empty (f : frame) : Bool := !(ptrToBool f.address)

/-- `BOOST_EXPLICIT_OPERATOR_BOOL_NOEXCEPT()` — the explicit boolean
conversion, which Boost.Core defines as `!this->operator!()`. -/
def frame.operatorBool (f : frame) : Bool := !(f.operatorNot)

/-- `operator< (lhs, rhs) { return lhs.address() < rhs.address(); }` -/
def frame.lt (lhs rhs : frame) : Bool := decide (lhs.address < rhs.address)

/-- `operator> (lhs, rhs) { return rhs < lhs; }` -/
def frame.gt (lhs rhs : frame) : Bool := frame.lt rhs lhs

/-- `operator<=(lhs, rhs) { return !(lhs > rhs); }` -/
def frame.le (lhs rhs : frame) : Bool := !(frame.gt lhs rhs)

/-- `operator>=(lhs, rhs) { return !(lhs < rhs); }` -/
def frame.ge (lhs rhs : frame) : Bool := !(frame.lt lhs rhs)

/-- `operator==(lhs, rhs) { return lhs.address() == rhs.address(); }` -/
def frame.eqOp (lhs rhs : frame) : Bool := lhs.address == rhs.address

/-- `operator!=(lhs, rhs) { return !(lhs == rhs); }` -/
def frame.neOp (lhs rhs : frame) : Bool := !(frame.eqOp lhs rhs)

/-- `std::size_t hash_value(const frame& f) { return
reinterpret_cast<std::size_t>(f.address()); }` — with addresses modelled as
`Nat`, the reinterpretation of the pointer as an unsigned integral value is
the address value itself. -/
def hash_value (f : frame) : Nat := f.address

/-- Modelled from the spec: the concrete implementations of
`detail::backend` (the no-op stub, WinDbg, addr2line and backtrace
strategies, in `backend.ipp`) are not among the given sources; only the
declaration and the documented contract are.  An active backend is a bundle
of the resolution operations together with the contract the spec states for
every backend: resolving the NULL address yields an empty name, an empty
source file and line `0` (the default constructor's documentation), and
`source_file` returns the empty string whenever `source_line` is `0` (the
`source_file` documentation). -/
structure Backend where
  nameOf : Nat → String
  source_file : Nat → String
  source_line : Nat → Nat
  to_string : Nat → String
  name_null : nameOf 0 = ""
  source_file_null : source_file 0 = ""
  source_line_null : source_line 0 = 0
  source_file_of_line_zero : ∀ a, source_line a = 0 → source_file a = ""

/-- Modelled from the spec: the no-op stub backend, which resolves nothing
and returns empty/default results everywhere.  It witnesses that the
`Backend` contract is satisfiable. -/
def noopBackend : Backend where
  nameOf := fun _ => ""
  source_file := fun _ => ""
  source_line := fun _ => 0
  to_string := fun _ => ""
  name_null := rfl
  source_file_null := rfl
  source_line_null := rfl
  source_file_of_line_zero := fun _ _ => rfl

/-- `std::string name() const;` — delegates resolution of the stored
address to the active backend. -/
def frame.name (B : Backend) (f : frame) : String := B.nameOf f.address

/-- `std::string source_file() const;` — delegates to the active backend. -/
def frame.source_file (B : Backend) (f : frame) : String :=
  B.source_file f.address

/-- `std::size_t source_line() const;` — delegates to the active backend. -/
def frame.source_line (B : Backend) (f : frame) : Nat :=
  B.source_line f.address

/-- An output stream, modelled by the text written to it so far. -/
def ostreamState := String

/-- `os << s` for a string: appends the text to the stream. -/
def ostreamWrite (os : String) (s : String) : String := os ++ s

/-- `operator<<(os, f) { return os << detail::backend::to_string(f.address()); }`
— stream insertion of a frame renders the stored address through the active
backend's single-address `to_string` and writes that text. -/
def frameInsert (B : Backend) (os : String) (f : frame) : String :=
  ostreamWrite os (B.to_string f.address)

/-- Modelled from the spec: `backend::collect(void** memory, std::size_t
size)` fills up to `size` raw addresses of the current call stack into the
caller's buffer and returns the number written; its implementation
(`backend.ipp`) is not among the given sources.  The live call stack is
modelled as the list of its return addresses, and `collect` writes its
first `size` entries, returning the written prefix together with the
count. -/
def backend.collect (stack : List Nat) (size : Nat) : List Nat × Nat :=
  let written := stack.take size
  (written, written.length)

/-- One member-function call on a frame (the operations of claim C10);
binary operators carry their second operand, stream insertion carries the
stream. -/
inductive frameOp where
  | addrOf
  | nameCall
  | sourceFileCall
  | sourceLineCall
  | emptyCall
  | boolConv
  | notCall
  | ltWith (g : frame)
  | gtWith (g : frame)
  | leWith (g : frame)
  | geWith (g : frame)
  | eqWith (g : frame)
  | neWith (g : frame)
  | hashCall
  | insertInto (os : String)

/-- The observable result of one operation. -/
inductive frameObs where
  | natRes (n : Nat)
  | strRes (s : String)
  | boolRes (b : Bool)

/-- Executes one member-function call on a frame, returning the frame's
state afterwards together with the observation.  Every member in the source
is `const` (or takes the frame by const reference) and never assigns
`addr_`, so each branch returns the frame unchanged. -/
def frame.step (B : Backend) (f : frame) : frameOp → frame × frameObs
  | .addrOf => (f, .natRes f.address)
  | .nameCall => (f, .strRes (f.name B))
  | .sourceFileCall => (f, .strRes (f.source_file B))
  | .sourceLineCall => (f, .natRes (f.source_line B))
  | .emptyCall => (f, .boolRes f.empty)
  | .boolConv => (f, .boolRes f.operatorBool)
  | .notCall => (f, .boolRes f.operatorNot)
  | .ltWith g => (f, .boolRes (frame.lt f g))
  | .gtWith g => (f, .boolRes (frame.gt f g))
  | .leWith g => (f, .boolRes (frame.le f g))
  | .geWith g => (f, .boolRes (frame.ge f g))
  | .eqWith g => (f, .boolRes (frame.eqOp f g))
  | .neWith g => (f, .boolRes (frame.neOp f g))
  | .hashCall => (f, .natRes (hash_value f))
  | .insertInto os => (f, .strRes (frameInsert B os f))

/-- Runs a sequence of member-function calls, threading the frame state. -/
def frame.run (B : Backend) (f : frame) : List frameOp → frame
  | [] => f
  | op :: ops => frame.run B (frame.step B f op).1 ops

/-- C1: for every address `a`, constructing a frame from `a` and then
calling `address()` returns `a` unchanged: `frame(a).address() == a`. -/
theorem frame_address_roundtrip (a : Nat) : (frame.ofAddr a).address = a := rfl

/-- C2: the default-constructed frame is empty; for every non-null address
`a`, `frame(a)` is non-empty; and for every frame `f`, `empty()` returns
`true` exactly when the boolean conversion returns `false`. -/
theorem frame_empty_bool_agree (a : Nat) (f : frame) (h : a ≠ 0) :
    frame.default.empty = true ∧
    (frame.ofAddr a).empty = false ∧
    (f.empty = true ↔ f.operatorBool = false) := by
  refine ⟨rfl, ?_, ?_⟩
  · simp [frame.empty, frame.ofAddr, frame.address, ptrToBool, h]
  · simp [frame.empty, frame.operatorBool, frame.operatorNot]

/-- Witness for C2 at the concrete address `7` and the frame at `3`. -/
theorem frame_empty_bool_agree_witness :
    frame.default.empty = true ∧
    (frame.ofAddr 7).empty = false ∧
    ((frame.ofAddr 3).empty = true ↔ (frame.ofAddr 3).operatorBool = false) :=
  frame_empty_bool_agree 7 (frame.ofAddr 3) (by decide)

/-- C3: for every pair of frames `a` and `b`, exactly one of `a<b`, `a>b`,
`a==b` holds, `a<=b` holds iff `!(a>b)`, and `a>=b` holds iff `!(a<b)`. -/
theorem frame_order_trichotomy (a b : frame) :
    ((frame.lt a b = true ∧ frame.gt a b = false ∧ frame.eqOp a b = false) ∨
     (frame.lt a b = false ∧ frame.gt a b = true ∧ frame.eqOp a b = false) ∨
     (frame.lt a b = false ∧ frame.gt a b = false ∧ frame.eqOp a b = true)) ∧
    (frame.le a b = true ↔ ¬ frame.gt a b = true) ∧
    (frame.ge a b = true ↔ ¬ frame.lt a b = true) := by
  refine ⟨?_, ?_, ?_⟩
  · simp only [frame.lt, frame.gt, frame.eqOp, decide_eq_true_eq,
      decide_eq_false_iff_not, beq_iff_eq, beq_eq_false_iff_ne, ne_eq]
    omega
  · simp [frame.le]
  · simp [frame.ge]

/-- C4: for every frame `f`, `hash_value(f)` equals `f`'s address
reinterpreted as an unsigned integral value, and equal addresses hash
identically: if `a == b` then `hash_value(frame(a)) == hash_value(frame(b))`. -/
theorem hash_value_is_address (f : frame) (a b : Nat) (h : a = b) :
    hash_value f = f.address ∧
    hash_value (frame.ofAddr a) = hash_value (frame.ofAddr b) :=
  ⟨rfl, by rw [h]⟩

/-- Witness for C4 at the frame at `5` and the equal addresses `9 = 9`. -/
theorem hash_value_is_address_witness :
    hash_value (frame.ofAddr 5) = (frame.ofAddr 5).address ∧
    hash_value (frame.ofAddr 9) = hash_value (frame.ofAddr 9) :=
  hash_value_is_address (frame.ofAddr 5) 9 9 rfl

/-- C5: for every backend, stream and frame, inserting the frame into the
stream writes exactly the text produced by the backend's single-address
`to_string` applied to the frame's address, and nothing else. -/
theorem stream_insert_delegates (B : Backend) (os : String) (f : frame) :
    frameInsert B os f = os ++ B.to_string f.address := rfl

/-- C6: for the empty frame (address 0), whichever backend is active,
`name()` and `source_file()` return the empty string and `source_line()`
returns `0`. -/
theorem empty_frame_resolution_defaults (B : Backend) :
    frame.name B frame.default = "" ∧
    frame.source_file B frame.default = "" ∧
    frame.source_line B frame.default = 0 :=
  ⟨B.name_null, B.source_file_null, B.source_line_null⟩

/-- C7: for every backend and frame, if `source_line()` is `0` (the line
number is unknown) then `source_file()` returns the empty string. -/
theorem source_file_empty_of_line_zero (B : Backend) (f : frame)
    (h : frame.source_line B f = 0) : frame.source_file B f = "" :=
  B.source_file_of_line_zero f.address h

/-- Witness for C7: the no-op backend on the empty frame has line `0` and
an empty source file. -/
theorem source_file_empty_of_line_zero_witness :
    frame.source_file noopBackend frame.default = "" :=
  source_file_empty_of_line_zero noopBackend frame.default rfl

/-- C8: `collect` writes at most `size` addresses and returns the number
written; when `size` is smaller than the true stack depth it returns
exactly `size` entries without writing past the buffer, and when `size` is
`0` it returns `0` and writes nothing at all. -/
theorem collect_bounded (stack : List Nat) (size : Nat)
    (h : size < stack.length) :
    (backend.collect stack size).2 ≤ size ∧
    (backend.collect stack size).1.length = (backend.collect stack size).2 ∧
    (backend.collect stack size).2 = size ∧
    backend.collect stack 0 = ([], 0) := by
  refine ⟨?_, rfl, ?_, ?_⟩
  · simp only [backend.collect, List.length_take]
    exact Nat.min_le_left size stack.length
  · simp only [backend.collect, List.length_take]
    omega
  · simp [backend.collect]

/-- Witness for C8 on the three-address stack `[10, 20, 30]` with buffer
capacity `2`. -/
theorem collect_bounded_witness :
    (backend.collect [10, 20, 30] 2).2 ≤ 2 ∧
    (backend.collect [10, 20, 30] 2).1.length = (backend.collect [10, 20, 30] 2).2 ∧
    (backend.collect [10, 20, 30] 2).2 = 2 ∧
    backend.collect [10, 20, 30] 0 = ([], 0) :=
  collect_bounded [10, 20, 30] 2 (by decide)

/-- C9: the hash is consistent with equality in both directions: for all
frames `f` and `g`, `hash_value(f) == hash_value(g)` iff `f == g`. -/
theorem hash_eq_iff_frame_eq (f g : frame) :
    hash_value f = hash_value g ↔ frame.eqOp f g = true := by
  simp [hash_value, frame.eqOp]

/-- C10: a frame's entire state is its single stored address, fixed at
construction: running any sequence of member-function calls (address,
name, source_file, source_line, empty, boolean conversion, the comparison
operators, hashing, stream insertion) leaves the stored address unchanged,
so `address()` returns the same value afterwards as at construction. -/
theorem frame_state_immutable (B : Backend) (f : frame) (ops : List frameOp) :
    (frame.run B f ops).address = f.address := by
  induction ops generalizing f with
  | nil => rfl
  | cons op ops ih =>
    have hstep : (frame.step B f op).1 = f := by cases op <;> rfl
    rw [frame.run, hstep]
    exact ih f
